import Mathlib

/-!
Shallow embedding of the "This or That" single-page app
(`src/unnamed/part_000`, a React `App.js`).

The embedding covers the two components the specification documents:

* the Generation Client `fetchOptionsFromAI` (lines 41-131 of the source),
  modelled as a pure function from the credential and the service's
  response to the returned option array together with the error-state
  write it performs; and
* the Session Controller: `handleGenerateNew` (lines 134-160),
  `handlePrevious` (lines 162-171), the category buttons
  (`setSelectedCategory`, line 192), the regeneration `useEffect`
  (lines 173-178) and the two navigation buttons with their `disabled`
  conditions (lines 234-258), modelled as pure state transformers over a
  `Session` record that gathers the seven `useState` cells.

The network itself is external: a call's outcome is a `ServiceResponse`
value passed in as a parameter (the promise's resolution), and the raw
text payload of the first candidate part is represented by the outcome of
`JSON.parse` on it, since the embedding observes the text only through
that parse.
-/

namespace ThisOrThat

/-- A JSON value, as produced by a successful `JSON.parse` of the
service's structured text payload. -/
inductive Json where
  | null : Json
  | bool (b : Bool) : Json
  | num (n : Int) : Json
  | str (s : String) : Json
  | arr (elems : List Json) : Json
  | obj (fields : List (String × Json)) : Json


/-- One element of `candidates[0].content.parts` in the Gemini response
body.  The source reads only `parts[0].text` and immediately runs
`JSON.parse` on it, so the text is represented by that parse's outcome:
`Except.ok j` when it parses to the JSON value `j`, `Except.error m` when
`JSON.parse` throws (malformed payload, or `text` absent) with message
`m`. -/
structure CandidatePart where
  text : Except String Json


/-- The `content` object of a candidate; `parts` is `none` when the field
is absent (JS `undefined`). An empty list models a present-but-empty
array, which is truthy in JS but fails the `parts.length > 0` check. -/
structure CandidateContent where
  parts : Option (List CandidatePart)


/-- One element of the response's `candidates` array; `content` is `none`
when the field is absent. -/
structure Candidate where
  content : Option CandidateContent


/-- The parsed JSON body of a 2xx response (`result` in the source);
`candidates` is `none` when the field is absent. -/
structure GeminiResult where
  candidates : Option (List Candidate)


/-- The outcome of the single `fetch` call made by `fetchOptionsFromAI`:
`networkError m` models the fetch promise rejecting with message `m`,
`httpError status details` models `response.ok` being false (with
`details` the serialized JSON error body), and `success result` models a
2xx response whose JSON body parsed to `result`. -/
inductive ServiceResponse where
  | networkError (msg : String) : ServiceResponse
  | httpError (status : Nat) (details : String) : ServiceResponse
  | success (result : GeminiResult) : ServiceResponse


/-- The `!apiKey` guard at source lines 44-48: `process.env` may leave the
variable `undefined` (`none`) and the empty string is also falsy. -/
def keyMissing : Option String → Bool
  | none => true
  | some key => key.isEmpty

/-- Message of the error thrown at source line 47 when the credential is
absent. -/
def configErrorMsg : String :=
  "GEMINI_API_KEY is not configured. Please set REACT_APP_GEMINI_API_KEY in Netlify environment variables."

/-- Message of the error thrown at source line 121 when the decoded
payload is not an array of exactly two strings. -/
def schemaErrorMsg : String :=
  "AI response format was unexpected. Expected an array of two strings."

/-- Message of the error thrown at source line 124 when the response
envelope has no usable first candidate part. -/
def envelopeErrorMsg : String :=
  "Failed to generate options from AI. Response was empty or malformed."

/-- The envelope navigation of source lines 107-114: the guard
`result.candidates && result.candidates.length > 0 &&
result.candidates[0].content && result.candidates[0].content.parts &&
result.candidates[0].content.parts.length > 0`, followed by reading
`candidates[0].content.parts[0].text`.  Returns the parse outcome of that
text, or `none` when the guard fails. -/
def extractParsedText (result : GeminiResult) : Option (Except String Json) :=
  match result.candidates with
  | some (c :: _) =>
    match c.content with
    | some content =>
      match content.parts with
      | some (p :: _) => some p.text
      | _ => none
    | none => none
  | _ => none

/-- The validation of source lines 117-122: `Array.isArray(options) &&
options.length === 2 && typeof options[0] === 'string' && typeof
options[1] === 'string'`, returning the array itself on success and
throwing the schema error otherwise.  Non-emptiness of the strings is
not checked. -/
def validateOptions (options : Json) : Except String (List String) :=
  match options with
  | Json.arr [Json.str a, Json.str b] => Except.ok [a, b]
  | _ => Except.error schemaErrorMsg

/-- The `try` body of `fetchOptionsFromAI` (source lines 43-125): an
`Except.error m` is a thrown `Error` with message `m`, caught by the
handler at line 126.  In order: the missing-credential throw, the fetch
rejection, the `!response.ok` throw, the envelope throw, the `JSON.parse`
throw, and the array-of-two-strings validation. -/
def fetchBody (apiKey : Option String) (resp : ServiceResponse) :
    Except String (List String) :=
  if keyMissing apiKey then
    Except.error configErrorMsg
  else
    match resp with
    | ServiceResponse.networkError msg => Except.error msg
    | ServiceResponse.httpError status details =>
      Except.error ("HTTP error! Status: " ++ toString status ++ ". Details: " ++ details)
    | ServiceResponse.success result =>
      match extractParsedText result with
      | none => Except.error envelopeErrorMsg
      | some (Except.error m) => Except.error m
      | some (Except.ok options) => validateOptions options

/-- The message built by the `catch` handler at source line 128. -/
def errorWrap (m : String) : String :=
  "Failed to fetch options: " ++ m ++ ". Please check your network or API key configuration."

/-- `fetchOptionsFromAI` (source lines 41-131) as a whole: first
component is the returned array, second is the `error` state cell as the
call leaves it (cleared to `""` at line 42, overwritten by the `catch`
handler at line 128 on any throw, which then returns `['', '']`). -/
def fetchOptionsFromAI (apiKey : Option String) (resp : ServiceResponse) :
    List String × String :=
  match fetchBody apiKey resp with
  | Except.ok options => (options, "")
  | Except.error m => (["", ""], errorWrap m)

/-- A well-formed response envelope whose first candidate part's text
parses to `payload`; used to instantiate theorems at concrete inputs. -/
def okEnvelope (payload : Json) : GeminiResult :=
  { candidates := some [{ content := some { parts := some [{ text := Except.ok payload }] } }] }

/-- A 2xx service response carrying `payload` as the structured text of
the first candidate part. -/
def okResponse (payload : Json) : ServiceResponse :=
  ServiceResponse.success (okEnvelope payload)

/-- One recorded question (source lines 140-144): `{ category, optionA,
optionB }`. -/
structure HistoryEntry where
  category : String
  optionA : String
  optionB : String
deriving DecidableEq

/-- The seven `useState` cells of the `App` component (source lines
6-20), gathered into one record. -/
structure Session where
  selectedCategory : String
  optionA : String
  optionB : String
  isLoading : Bool
  error : String
  history : List HistoryEntry
  historyIndex : Int
deriving DecidableEq

/-- The state on app load (the `useState` initial values, source lines
6-20): default category, empty options and error, empty history, index
`-1`. -/
def initialSession : Session :=
  { selectedCategory := "Everyday Life", optionA := "", optionB := "",
    isLoading := false, error := "", history := [], historyIndex := -1 }

/-- The fixed category enumeration (source lines 23-33). -/
def categories : List String :=
  ["Everyday Life", "Superpowers", "Travel & Adventure", "Food & Drink",
   "Past or Future", "Silly Scenarios", "Animals", "Personal Quirks",
   "Relationships"]

/-- JS array indexing `l[i]` with a possibly negative integer index:
`undefined` (`none`) when out of range on either side. -/
def jsIndex (l : List α) (i : Int) : Option α :=
  if 0 ≤ i then l.get? i.toNat else none

/-- JS `l.slice(0, e)` with an integer end: a negative `e` counts from
the end of the array, and the result is clamped to the array bounds. -/
def jsSliceTo (l : List α) (e : Int) : List α :=
  if 0 ≤ e then l.take e.toNat else l.take (l.length - e.natAbs)

/-- A category button's click handler (source line 192):
`setSelectedCategory(category)`. -/
def setSelectedCategory (c : String) (s : Session) : Session :=
  { s with selectedCategory := c }

/-- `handleGenerateNew` (source lines 134-160) as a state transformer,
given the outcome of its `fetchOptionsFromAI` call.  The handler sets
`isLoading` to `true`, awaits the fetch (which writes the `error` cell as
modelled in `fetchOptionsFromAI`), destructures the returned array, and
if at least one option is a non-empty (truthy) string appends
`{ selectedCategory, optionA, optionB }` to the history — reset to `[]`
when `initialLoad`, else truncated by `slice(0, historyIndex + 1)` — and
moves the index to the new entry; otherwise it leaves history and index
alone.  Either way it finishes by storing the two options and clearing
`isLoading`, so only the final values of the cells appear here. -/
def handleGenerateNew (apiKey : Option String) (resp : ServiceResponse)
    (initialLoad : Bool) (s : Session) : Session :=
  let newOptionA := (fetchOptionsFromAI apiKey resp).1.getD 0 ""
  let newOptionB := (fetchOptionsFromAI apiKey resp).1.getD 1 ""
  if newOptionA ≠ "" ∨ newOptionB ≠ "" then
    { s with
      error := (fetchOptionsFromAI apiKey resp).2,
      history := (if initialLoad then [] else jsSliceTo s.history (s.historyIndex + 1)) ++
        [{ category := s.selectedCategory, optionA := newOptionA, optionB := newOptionB }],
      historyIndex := if initialLoad then 0 else s.historyIndex + 1,
      optionA := newOptionA, optionB := newOptionB, isLoading := false }
  else
    { s with
      error := (fetchOptionsFromAI apiKey resp).2,
      optionA := newOptionA, optionB := newOptionB, isLoading := false }

/-- `handlePrevious` (source lines 162-171): guarded by
`historyIndex > 0`; reads `history[historyIndex - 1]` and copies its
fields into the display cells and the selected category.  If that read
gave `undefined` the property access on the next line would throw before
any state setter runs, leaving the state unchanged, hence the `none`
branch. -/
def handlePrevious (s : Session) : Session :=
  if 0 < s.historyIndex then
    match jsIndex s.history (s.historyIndex - 1) with
    | some prevQuestion =>
      { s with optionA := prevQuestion.optionA, optionB := prevQuestion.optionB,
               selectedCategory := prevQuestion.category,
               historyIndex := s.historyIndex - 1 }
    | none => s
  else s


/-- The "Previous Question" button (source lines 234-245): it is
`disabled` while `isLoading || historyIndex <= 0`, so a click reaches
`handlePrevious` only outside those conditions. -/
def requestPrevious (s : Session) : Session :=
  if s.isLoading = true ∨ s.historyIndex ≤ 0 then s else handlePrevious s

/-- The "Next Question" button (source lines 247-258): `disabled` while
`isLoading`; its `onClick` is `handleGenerateNew` itself, so React
invokes the handler with the synthetic click event as the first
argument.  The event is an object and objects are truthy in JS, so the
`initialLoad` parameter of `handleGenerateNew` is effectively `true` on
every click — the `initialLoad = false` default at source line 134 never
applies to clicks. -/
def requestNext (apiKey : Option String) (resp : ServiceResponse)
    (s : Session) : Session :=
  if s.isLoading then s else handleGenerateNew apiKey resp true s

/-- The condition of the regeneration `useEffect` (source lines
173-178): `history[historyIndex]` is absent (`undefined` is falsy), or
its category differs from the selected one. -/
def regenNeeded (s : Session) : Bool :=
  match jsIndex s.history s.historyIndex with
  | none => true
  | some currentQuestion => currentQuestion.category != s.selectedCategory

/-- One evaluation of the regeneration `useEffect` body (source lines
173-178): when `regenNeeded` holds it makes exactly one call,
`handleGenerateNew(historyIndex === -1)`; otherwise it does nothing. -/
def effectStep (apiKey : Option String) (resp : ServiceResponse)
    (s : Session) : Session :=
  if regenNeeded s then handleGenerateNew apiKey resp (s.historyIndex == -1) s
  else s

/-- The discrete events the app's state reacts to: a category button
click, a "Next Question" click, a "Previous Question" click, and a
resolved generation (covering the effect-triggered calls with either
`initialLoad` tag; `resp` carries success or failure). -/
inductive Event where
  | select (c : String) : Event
  | next (apiKey : Option String) (resp : ServiceResponse) : Event
  | previous : Event
  | generate (apiKey : Option String) (resp : ServiceResponse)
      (initialLoad : Bool) : Event

/-- The transition function gathering all operations of the Session
Controller. -/
def step : Event → Session → Session
  | Event.select c, s => setSelectedCategory c s
  | Event.next apiKey resp, s => requestNext apiKey resp s
  | Event.previous, s => requestPrevious s
  | Event.generate apiKey resp il, s => handleGenerateNew apiKey resp il s

/-- The cursor invariant of the spec's data model: `historyIndex` is `-1`
or a valid index into `history`. -/
def Inv (s : Session) : Prop :=
  s.historyIndex = -1 ∨
    (0 ≤ s.historyIndex ∧ s.historyIndex < (s.history.length : Int))

/-- A session mid-game, used to instantiate theorems: three recorded
questions, cursor on the last, and a selected category that differs from
every recorded one. -/
def sampleSession3 : Session :=
  { selectedCategory := "Animals", optionA := "u", optionB := "v",
    isLoading := false, error := "",
    history := [{ category := "Food & Drink", optionA := "p", optionB := "q" },
                { category := "Food & Drink", optionA := "r", optionB := "t" },
                { category := "Superpowers", optionA := "u", optionB := "v" }],
    historyIndex := 2 }

/-- A successful generation: the service's payload decodes to
`["Cats", "Dogs"]`. -/
def respAB : ServiceResponse :=
  okResponse (Json.arr [Json.str "Cats", Json.str "Dogs"])

/-- A response whose payload is a well-formed two-string array with both
strings empty. -/
def respEmptyPair : ServiceResponse :=
  okResponse (Json.arr [Json.str "", Json.str ""])

theorem validateOptions_ok (options : Json) (opts : List String)
    (h : validateOptions options = Except.ok opts) :
    ∃ a b, options = Json.arr [Json.str a, Json.str b] ∧ opts = [a, b] := by
  unfold validateOptions at h
  split at h
  · rename_i a b
    injection h with h
    exact ⟨a, b, rfl, h.symm⟩
  · cases h

theorem fetchBody_ok_pair (apiKey : Option String) (resp : ServiceResponse)
    (opts : List String) (h : fetchBody apiKey resp = Except.ok opts) :
    ∃ a b, opts = [a, b] := by
  unfold fetchBody at h
  split at h
  · cases h
  · split at h
    · cases h
    · cases h
    · split at h
      · cases h
      · cases h
      · obtain ⟨a, b, _, rfl⟩ := validateOptions_ok _ _ h
        exact ⟨a, b, rfl⟩

theorem fetch_fst_pair (apiKey : Option String) (resp : ServiceResponse) :
    ∃ a b, (fetchOptionsFromAI apiKey resp).1 = [a, b] := by
  unfold fetchOptionsFromAI
  cases h : fetchBody apiKey resp with
  | ok opts =>
    obtain ⟨a, b, rfl⟩ := fetchBody_ok_pair apiKey resp opts h
    exact ⟨a, b, rfl⟩
  | error m => exact ⟨"", "", rfl⟩

theorem errorWrap_ne (m : String) : errorWrap m ≠ "" := by
  intro h
  have hl := congrArg String.length h
  simp [errorWrap, String.length_append] at hl
  exact absurd hl.1.1 (by decide)

theorem fetch_error_empty_iff (apiKey : Option String)
    (resp : ServiceResponse) :
    (fetchOptionsFromAI apiKey resp).2 = "" ↔
      ∃ opts, fetchBody apiKey resp = Except.ok opts := by
  unfold fetchOptionsFromAI
  cases h : fetchBody apiKey resp with
  | ok opts => simp
  | error m => simp [errorWrap_ne m]

theorem fetchBody_success_eq (apiKey : Option String) (res : GeminiResult)
    (hk : keyMissing apiKey = false) :
    fetchBody apiKey (ServiceResponse.success res) =
      match extractParsedText res with
      | none => Except.error envelopeErrorMsg
      | some (Except.error m) => Except.error m
      | some (Except.ok options) => validateOptions options := by
  unfold fetchBody
  rw [if_neg (by simp [hk])]

theorem fetchBody_success_ok_iff (apiKey : Option String)
    (res : GeminiResult) (hk : keyMissing apiKey = false)
    (opts : List String) :
    fetchBody apiKey (ServiceResponse.success res) = Except.ok opts ↔
      ∃ a b, opts = [a, b] ∧
        extractParsedText res =
          some (Except.ok (Json.arr [Json.str a, Json.str b])) := by
  rw [fetchBody_success_eq apiKey res hk]
  constructor
  · intro h
    cases hx : extractParsedText res with
    | none =>
      rw [hx] at h
      cases h
    | some e =>
      cases e with
      | error m =>
        rw [hx] at h
        cases h
      | ok j =>
        rw [hx] at h
        obtain ⟨a, b, hj, rfl⟩ := validateOptions_ok j opts h
        exact ⟨a, b, rfl, by rw [hj]⟩
  · rintro ⟨a, b, rfl, hx⟩
    rw [hx]
    rfl

theorem genNew_success (apiKey : Option String) (resp : ServiceResponse)
    (initialLoad : Bool) (s : Session) (a b : String)
    (hopts : (fetchOptionsFromAI apiKey resp).1 = [a, b])
    (hab : a ≠ "" ∨ b ≠ "") :
    handleGenerateNew apiKey resp initialLoad s =
      { s with
        error := (fetchOptionsFromAI apiKey resp).2,
        history := (if initialLoad then []
            else jsSliceTo s.history (s.historyIndex + 1)) ++
          [{ category := s.selectedCategory, optionA := a, optionB := b }],
        historyIndex := if initialLoad then 0 else s.historyIndex + 1,
        optionA := a, optionB := b, isLoading := false } := by
  unfold handleGenerateNew
  simp only [hopts, List.getD_cons_zero, List.getD_cons_succ]
  rw [if_pos hab]

theorem genNew_failure (apiKey : Option String) (resp : ServiceResponse)
    (initialLoad : Bool) (s : Session)
    (hopts : (fetchOptionsFromAI apiKey resp).1 = ["", ""]) :
    handleGenerateNew apiKey resp initialLoad s =
      { s with error := (fetchOptionsFromAI apiKey resp).2,
               optionA := "", optionB := "", isLoading := false } := by
  unfold handleGenerateNew
  simp only [hopts, List.getD_cons_zero, List.getD_cons_succ]
  rw [if_neg (by simp)]

theorem Inv_handleGenerateNew (apiKey : Option String)
    (resp : ServiceResponse) (il : Bool) (s : Session) (hs : Inv s) :
    Inv (handleGenerateNew apiKey resp il s) := by
  obtain ⟨a, b, hopts⟩ := fetch_fst_pair apiKey resp
  by_cases hab : a ≠ "" ∨ b ≠ ""
  · rw [genNew_success apiKey resp il s a b hopts hab]
    right
    refine ⟨?_, ?_⟩
    · dsimp only
      rcases hs with h | ⟨h1, h2⟩ <;> split <;> omega
    · dsimp only
      rw [List.length_append]
      split
      · simp only [List.length_nil, List.length_cons]
        omega
      · unfold jsSliceTo
        rcases hs with h | ⟨h1, h2⟩
        · rw [if_pos (by omega), List.length_take, List.length_cons]
          simp only [List.length_nil]
          omega
        · rw [if_pos (by omega), List.length_take, List.length_cons]
          simp only [List.length_nil]
          omega
  · push_neg at hab
    obtain ⟨ha, hb⟩ := hab
    subst ha
    subst hb
    rw [genNew_failure apiKey resp il s hopts]
    exact hs

theorem Inv_handlePrevious (s : Session) (hs : Inv s) :
    Inv (handlePrevious s) := by
  unfold handlePrevious
  split
  · rename_i hpos
    split
    · rename_i q hq
      right
      refine ⟨?_, ?_⟩ <;> dsimp only <;>
        rcases hs with h | ⟨h1, h2⟩ <;> omega
    · exact hs
  · exact hs

/-- C1: the claim says a "Next Question" click always has
non-initial-load semantics (truncate the existing history, append, move
the cursor to the new last index) and never replaces the history with a
single-element sequence.  The code does the opposite: the button's
`onClick` is `handleGenerateNew` itself, so the truthy click event lands
in the `initialLoad` parameter and every click takes the initial-load
branch.  Evaluated here at a concrete state with three history entries
and cursor 2: after a successful generation the history is the single
new entry and the cursor is 0, not length 4 with cursor 3. -/
theorem C1_next_click_resets_history :
    requestNext (some "key") respAB sampleSession3 =
      { sampleSession3 with
        history := [{ category := "Animals", optionA := "Cats",
                      optionB := "Dogs" }],
        historyIndex := 0, optionA := "Cats", optionB := "Dogs",
        error := "", isLoading := false } := by
  decide

/-- C7: the cursor invariant — `historyIndex` is `-1` or a valid index
into `history` — holds in the initial session and is preserved by every
operation of the Session Controller: category selection, a "Next
Question" click, a "Previous Question" click, and a resolved generation
with either `initialLoad` tag, whether it succeeds or fails. -/
theorem C7_cursor_invariant :
    Inv initialSession ∧
      ∀ (e : Event) (s : Session), Inv s → Inv (step e s) := by
  refine ⟨Or.inl rfl, ?_⟩
  intro e
  cases e with
  | select c => intro s hs; exact hs
  | next apiKey resp =>
    intro s hs
    show Inv (requestNext apiKey resp s)
    unfold requestNext
    split
    · exact hs
    · exact Inv_handleGenerateNew apiKey resp true s hs
  | previous =>
    intro s hs
    show Inv (requestPrevious s)
    unfold requestPrevious
    split
    · exact hs
    · exact Inv_handlePrevious s hs
  | generate apiKey resp il =>
    intro s hs
    exact Inv_handleGenerateNew apiKey resp il s hs

/-- Witness for C7 at a concrete input: the invariant holds after a
"Previous Question" click on the initial session. -/
theorem C7_cursor_invariant_witness :
    Inv (step Event.previous initialSession) :=
  C7_cursor_invariant.2 Event.previous initialSession (Or.inl rfl)

/-- C8: when the credential is absent (the `!apiKey` guard), the
Generation Client returns the wrapped missing-credential configuration
message with the empty pair, and its outcome does not depend on the
service response at all — the failure happens before any network
attempt. -/
theorem C8_missing_credential (apiKey : Option String)
    (resp resp2 : ServiceResponse) (hk : keyMissing apiKey = true) :
    fetchOptionsFromAI apiKey resp = (["", ""], errorWrap configErrorMsg) ∧
    fetchOptionsFromAI apiKey resp = fetchOptionsFromAI apiKey resp2 := by
  have h : ∀ r : ServiceResponse,
      fetchOptionsFromAI apiKey r = (["", ""], errorWrap configErrorMsg) := by
    intro r
    unfold fetchOptionsFromAI fetchBody
    rw [if_pos hk]
  exact ⟨h resp, (h resp).trans (h resp2).symm⟩

/-- Witness for C8: credential absent, network would have failed — the
result is the configuration error regardless. -/
theorem C8_missing_credential_witness :
    fetchOptionsFromAI none (ServiceResponse.networkError "offline") =
      (["", ""], errorWrap configErrorMsg) :=
  (C8_missing_credential none (ServiceResponse.networkError "offline")
    respAB rfl).1

/-- C9: `fetchOptionsFromAI` is total at its boundary — on every path it
returns an array of exactly two strings, and whenever it reports an
error (the `catch` handler ran) the returned array is exactly
`['', '']`. -/
theorem C9_fetch_total (apiKey : Option String) (resp : ServiceResponse) :
    (fetchOptionsFromAI apiKey resp).1.length = 2 ∧
    ((fetchOptionsFromAI apiKey resp).2 ≠ "" →
      (fetchOptionsFromAI apiKey resp).1 = ["", ""]) := by
  unfold fetchOptionsFromAI
  cases h : fetchBody apiKey resp with
  | ok opts =>
    obtain ⟨a, b, rfl⟩ := fetchBody_ok_pair apiKey resp opts h
    exact ⟨rfl, fun hne => absurd rfl hne⟩
  | error m => exact ⟨rfl, fun _ => rfl⟩

/-- Witness for C9 at a concrete failing input: a missing credential
reports an error and the returned pair is `['', '']`. -/
theorem C9_fetch_total_witness :
    (fetchOptionsFromAI none (ServiceResponse.networkError "offline")).1 =
      ["", ""] :=
  (C9_fetch_total none (ServiceResponse.networkError "offline")).2
    (by decide)

/-- C2 counterexample: the claim says a payload with an empty string
element must be reported as a validation failure (`SchemaError`), never
as a success.  But the source only checks `typeof === 'string'`, so the
well-formed payload `["", "Cats"]` is returned as a success with the
error state left empty. -/
theorem C2_counterexample_empty_string_accepted :
    fetchOptionsFromAI (some "key")
        (okResponse (Json.arr [Json.str "", Json.str "Cats"])) =
      (["", "Cats"], "") := by
  decide

/-- C2 (amended): with the credential present, the Generation Client
accepts a service response as a success exactly when the envelope yields
a first candidate part whose payload parses to a two-element array of
strings — empty strings included; on such a payload it returns the two
strings order-preserved with no error.  Every deviation (missing or
empty candidate list, missing content or parts, parse error, not an
array of exactly two strings) leaves a non-empty error message instead
of crashing. -/
theorem C2_schema_validation (apiKey : Option String) (res : GeminiResult)
    (hk : keyMissing apiKey = false) :
    ((fetchOptionsFromAI apiKey (ServiceResponse.success res)).2 = "" ↔
      ∃ a b, extractParsedText res =
        some (Except.ok (Json.arr [Json.str a, Json.str b]))) ∧
    (∀ a b, extractParsedText res =
        some (Except.ok (Json.arr [Json.str a, Json.str b])) →
      fetchOptionsFromAI apiKey (ServiceResponse.success res) =
        ([a, b], "")) := by
  constructor
  · rw [fetch_error_empty_iff]
    constructor
    · rintro ⟨opts, hok⟩
      obtain ⟨a, b, _, hx⟩ :=
        (fetchBody_success_ok_iff apiKey res hk opts).mp hok
      exact ⟨a, b, hx⟩
    · rintro ⟨a, b, hx⟩
      exact ⟨[a, b],
        (fetchBody_success_ok_iff apiKey res hk [a, b]).mpr ⟨a, b, rfl, hx⟩⟩
  · intro a b hx
    unfold fetchOptionsFromAI
    rw [(fetchBody_success_ok_iff apiKey res hk [a, b]).mpr ⟨a, b, rfl, hx⟩]

/-- Witness for C2 at a concrete input: a well-formed two-string payload
is returned as a success, order-preserved, with the error state empty. -/
theorem C2_schema_validation_witness :
    fetchOptionsFromAI (some "key")
        (okResponse (Json.arr [Json.str "Tea", Json.str "Coffee"])) =
      (["Tea", "Coffee"], "") :=
  (C2_schema_validation (some "key")
    (okEnvelope (Json.arr [Json.str "Tea", Json.str "Coffee"])) rfl).2
    "Tea" "Coffee" rfl

/-- C3: outside an in-flight generation, after selecting category `c`
the regeneration effect triggers nothing when the entry at the cursor
exists and already has category `c`; when the entry is absent or its
category differs, the effect makes exactly one generation call, tagged
`initialLoad = (historyIndex == -1)`; and when no regeneration is
needed the effect leaves the state untouched. -/
theorem C3_regeneration_trigger (s : Session) (c : String)
    (apiKey : Option String) (resp : ServiceResponse)
    (_hnl : s.isLoading = false) :
    (∀ q, jsIndex s.history s.historyIndex = some q → q.category = c →
      regenNeeded (setSelectedCategory c s) = false) ∧
    ((jsIndex s.history s.historyIndex = none ∨
        ∃ q, jsIndex s.history s.historyIndex = some q ∧ q.category ≠ c) →
      regenNeeded (setSelectedCategory c s) = true ∧
      effectStep apiKey resp (setSelectedCategory c s) =
        handleGenerateNew apiKey resp (s.historyIndex == -1)
          (setSelectedCategory c s)) ∧
    (regenNeeded (setSelectedCategory c s) = false →
      effectStep apiKey resp (setSelectedCategory c s) =
        setSelectedCategory c s) := by
  have hre : regenNeeded (setSelectedCategory c s) =
      match jsIndex s.history s.historyIndex with
      | none => true
      | some q => q.category != c := rfl
  refine ⟨?_, ?_, ?_⟩
  · intro q hq hqc
    rw [hre, hq]
    simp [hqc]
  · intro hmis
    have htrig : regenNeeded (setSelectedCategory c s) = true := by
      rcases hmis with hnone | ⟨q, hq, hne⟩
      · rw [hre, hnone]
      · rw [hre, hq]
        exact bne_iff_ne.mpr hne
    refine ⟨htrig, ?_⟩
    unfold effectStep
    rw [htrig]
    rfl
  · intro hno
    unfold effectStep
    rw [hno]
    rfl

/-- Witness for C3 at a concrete input: on the initial session (empty
history, cursor `-1`) selecting "Animals" needs regeneration and the
effect issues the generation call tagged with `historyIndex == -1`. -/
theorem C3_regeneration_trigger_witness :
    regenNeeded (setSelectedCategory "Animals" initialSession) = true ∧
    effectStep none (ServiceResponse.networkError "offline")
        (setSelectedCategory "Animals" initialSession) =
      handleGenerateNew none (ServiceResponse.networkError "offline")
        (initialSession.historyIndex == -1)
        (setSelectedCategory "Animals" initialSession) :=
  (C3_regeneration_trigger initialSession "Animals" none
    (ServiceResponse.networkError "offline") rfl).2.1 (Or.inl rfl)

/-- C4: a non-initial-load generation (`initialLoad = false`, as the
regeneration effect passes when the cursor is not `-1`) that succeeds
after the selected category changed away from the recorded one first
truncates the history to its first `cursor + 1` entries, then appends
the new entry, and moves the cursor to the new last index; the history
length becomes `cursor + 2`. -/
theorem C4_truncate_then_append (apiKey : Option String)
    (resp : ServiceResponse) (s : Session) (q : HistoryEntry)
    (a b : String)
    (hcur : 0 ≤ s.historyIndex)
    (hlen : s.historyIndex < (s.history.length : Int))
    (_hq : jsIndex s.history s.historyIndex = some q)
    (_hne : q.category ≠ s.selectedCategory)
    (hopts : (fetchOptionsFromAI apiKey resp).1 = [a, b])
    (hab : a ≠ "" ∨ b ≠ "") :
    handleGenerateNew apiKey resp false s =
      { s with
        error := (fetchOptionsFromAI apiKey resp).2,
        history := s.history.take (s.historyIndex + 1).toNat ++
          [{ category := s.selectedCategory, optionA := a, optionB := b }],
        historyIndex := s.historyIndex + 1,
        optionA := a, optionB := b, isLoading := false } ∧
    ((handleGenerateNew apiKey resp false s).history.length : Int) =
      s.historyIndex + 2 ∧
    (handleGenerateNew apiKey resp false s).historyIndex =
      ((handleGenerateNew apiKey resp false s).history.length : Int) - 1 := by
  have hsl : jsSliceTo s.history (s.historyIndex + 1) =
      s.history.take (s.historyIndex + 1).toNat := by
    unfold jsSliceTo
    rw [if_pos (by omega)]
  have hgen := genNew_success apiKey resp false s a b hopts hab
  rw [hsl] at hgen
  have hrec : handleGenerateNew apiKey resp false s =
      { s with
        error := (fetchOptionsFromAI apiKey resp).2,
        history := s.history.take (s.historyIndex + 1).toNat ++
          [{ category := s.selectedCategory, optionA := a, optionB := b }],
        historyIndex := s.historyIndex + 1,
        optionA := a, optionB := b, isLoading := false } := hgen
  have hlc : ((handleGenerateNew apiKey resp false s).history.length : Int) =
      s.historyIndex + 2 := by
    rw [hrec]
    dsimp only
    rw [List.length_append, List.length_take, List.length_cons]
    simp only [List.length_nil]
    omega
  refine ⟨hrec, hlc, ?_⟩
  rw [hlc, hrec]
  dsimp only
  omega

/-- Witness for C4 at the spec's scenario: from cursor 2 over a
three-entry history, a successful generation for a freshly selected
category gives history length 4 and cursor 3. -/
theorem C4_truncate_then_append_witness :
    ((handleGenerateNew (some "key") respAB false sampleSession3).history.length : Int) = 4 ∧
    (handleGenerateNew (some "key") respAB false sampleSession3).historyIndex = 3 := by
  have h := C4_truncate_then_append (some "key") respAB sampleSession3
    { category := "Superpowers", optionA := "u", optionB := "v" }
    "Cats" "Dogs" (by decide) (by decide) (by decide) (by decide)
    (by decide) (Or.inl (by decide))
  have hl : ((handleGenerateNew (some "key") respAB false sampleSession3).history.length : Int) = 4 :=
    h.2.1.trans (by decide)
  refine ⟨hl, ?_⟩
  rw [h.2.2, hl]
  decide

/-- C5: a "Previous Question" click is a no-op while a generation is in
flight or when the cursor is at most 0 (the button is disabled);
otherwise it decrements the cursor by exactly 1, leaves the history,
the loading flag and the error untouched, makes no Generation Client
call (the transformer takes no service input at all), and loads the
display pair and the selected category from the entry at the new
cursor. -/
theorem C5_previous_replay (s : Session) :
    ((s.isLoading = true ∨ s.historyIndex ≤ 0) → requestPrevious s = s) ∧
    (∀ q, s.isLoading = false → 0 < s.historyIndex →
      jsIndex s.history (s.historyIndex - 1) = some q →
      requestPrevious s =
        { s with optionA := q.optionA, optionB := q.optionB,
                 selectedCategory := q.category,
                 historyIndex := s.historyIndex - 1 }) := by
  constructor
  · intro h
    unfold requestPrevious
    rw [if_pos h]
  · intro q hL hpos hq
    unfold requestPrevious
    rw [if_neg (by simp [hL]; omega)]
    unfold handlePrevious
    rw [if_pos hpos, hq]

/-- Witness for C5 at a concrete input: from cursor 2 the click moves to
cursor 1 and replays the recorded entry's pair and category. -/
theorem C5_previous_replay_witness :
    requestPrevious sampleSession3 =
      { sampleSession3 with
        optionA := "r", optionB := "t",
        selectedCategory := "Food & Drink", historyIndex := 1 } :=
  (C5_previous_replay sampleSession3).2
    { category := "Food & Drink", optionA := "r", optionB := "t" }
    rfl (by decide) (by decide)

/-- C6: a failed generation attempt — the client reported an error, or
the returned pair is `['', '']` (both cases give exactly that array) —
clears the display pair, stores the client's error message, ends with
`isLoading = false`, and leaves history and cursor exactly unchanged;
hence two consecutive failed attempts leave history and cursor at their
pre-attempt values. -/
theorem C6_failure_leaves_history (apiKey apiKey2 : Option String)
    (resp resp2 : ServiceResponse) (il il2 : Bool) (s : Session)
    (h1 : (fetchOptionsFromAI apiKey resp).1 = ["", ""])
    (h2 : (fetchOptionsFromAI apiKey2 resp2).1 = ["", ""]) :
    handleGenerateNew apiKey resp il s =
      { s with optionA := "", optionB := "",
               error := (fetchOptionsFromAI apiKey resp).2,
               isLoading := false } ∧
    (handleGenerateNew apiKey2 resp2 il2
        (handleGenerateNew apiKey resp il s)).history = s.history ∧
    (handleGenerateNew apiKey2 resp2 il2
        (handleGenerateNew apiKey resp il s)).historyIndex =
      s.historyIndex := by
  have e1 := genNew_failure apiKey resp il s h1
  have e2 := genNew_failure apiKey2 resp2 il2
    (handleGenerateNew apiKey resp il s) h2
  refine ⟨e1, ?_, ?_⟩ <;> rw [e2, e1]

/-- Witness for C6 at a concrete input: two failed attempts (missing
credential) leave the initial session's history and cursor unchanged. -/
theorem C6_failure_leaves_history_witness :
    (handleGenerateNew none (ServiceResponse.networkError "offline") false
        (handleGenerateNew none (ServiceResponse.networkError "offline")
          false initialSession)).history = initialSession.history :=
  (C6_failure_leaves_history none none
    (ServiceResponse.networkError "offline")
    (ServiceResponse.networkError "offline") false false initialSession
    rfl rfl).2.1

/-- C10: a well-formed two-element payload of empty strings is returned
by the client as a success with no error set, and the controller then
takes the failure branch: display cleared, no history append, cursor
unchanged — yet `error` stays empty, so the session shows an empty pair
with no error message, matching neither the populated-Idle nor the
Errored shape. -/
theorem C10_empty_pair_silent_failure (s : Session) (il : Bool) :
    fetchOptionsFromAI (some "key") respEmptyPair = (["", ""], "") ∧
    handleGenerateNew (some "key") respEmptyPair il s =
      { s with optionA := "", optionB := "", error := "",
               isLoading := false } := by
  refine ⟨rfl, ?_⟩
  have h := genNew_failure (some "key") respEmptyPair il s rfl
  rw [h]
  rfl

end ThisOrThat
